import Mathlib

/-!
Shallow embedding of the numeric pipeline of `src/stockapp.py`
(HypixelAIStockTracker).  Floating-point numbers are modelled by rationals;
a pandas/numpy NaN entry is modelled by `none` in an `Option ℚ`, so an
indicator column is a `List (Option ℚ)` aligned index-for-index with the
price rows.  External collaborators (yfinance fetch, the pickled scaler,
the Keras classifier) are parameters of the pipeline function, and the
pipeline records which of them it invoked.
-/

/-- Series is an indicator column: one entry per price row, `none` for NaN. -/
abbrev Series := List (Option ℚ)

/-- LOOKBACK_DAYS constant from line 8 of the source. -/
def LOOKBACK_DAYS : Nat := 30

/-- PERCENTAGE_MOVES dictionary from lines 11-23 of the source; `none` models
a key missing from the Python dict. -/
def PERCENTAGE_MOVES : Nat → Option String
  | 0 => some "Neutral"
  | 1 => some "+3%"
  | 2 => some "+7%"
  | 3 => some "+10%"
  | 4 => some "+15%"
  | 5 => some "+30%"
  | 6 => some "-3%"
  | 7 => some "-7%"
  | 8 => some "-10%"
  | 9 => some "-15%"
  | 10 => some "-30%"
  | _ => none

/-- Label table written out from the spec wording of §4.4 (0 is Neutral,
1..5 the positive moves, 6..10 the negative moves), kept separate from
`PERCENTAGE_MOVES` so the two can be compared. -/
def specLabelTable : List String :=
  ["Neutral", "+3%", "+7%", "+10%", "+15%", "+30%", "-3%", "-7%", "-10%", "-15%", "-30%"]

/-- Direction of a trend prediction (derived in the source from the branch
structure at lines 118-124). -/
inductive Direction
  | Neutral
  | Up
  | Down
deriving DecidableEq, Repr

/-- TrendPrediction record of the spec (§3); the source materialises it as
the displayed result text at lines 114-124. -/
structure TrendPrediction where
  classIndex : Nat
  label : String
  direction : Direction
  confidencePct : ℚ
deriving DecidableEq, Repr

/-- Exceptions the numpy layer can raise (reshape ValueError, argmax on an
empty array, indexing an empty prediction). -/
inductive PyError
  | valueError
  | indexError
deriving DecidableEq, Repr

/-! ## IndicatorEngine: calculate_rsi (lines 37-47) -/

/-- seriesDiff models `data.diff()`: the first entry is NaN, entry i+1 is
`data[i+1] - data[i]`. -/
def seriesDiff (xs : List ℚ) : Series :=
  match xs with
  | [] => []
  | _ :: _ => none :: List.zipWith (fun prev cur => some (cur - prev)) xs xs.tail

/-- gainOf models one entry of `delta.where(delta > 0, 0)`: a NaN delta
compares as not-greater-than-zero, so it is replaced by 0. -/
def gainOf (d : Option ℚ) : ℚ :=
  match d with
  | none => 0
  | some x => if 0 < x then x else 0

/-- lossOf models one entry of `-delta.where(delta < 0, 0)`. -/
def lossOf (d : Option ℚ) : ℚ :=
  match d with
  | none => 0
  | some x => if x < 0 then -x else 0

/-- rollingMean models `.rolling(window=w).mean()` on a NaN-free column:
entry i is the mean of entries i-w+1..i, NaN while fewer than w entries
of history exist. -/
def rollingMean (window : Nat) (xs : List ℚ) : Series :=
  (List.range xs.length).map (fun i =>
    if window ≤ i + 1 then
      some (((xs.take (i + 1)).drop (i + 1 - window)).sum / (window : ℚ))
    else none)

/-- rollingVals lists only the defined values of `rollingMean window xs`,
in order. -/
def rollingVals (window : Nat) (xs : List ℚ) : List ℚ :=
  (List.range (xs.length + 1 - window)).map
    (fun j => (((xs.take (j + window)).drop j).sum) / (window : ℚ))

/-- rsOf models one entry of `np.where(loss == 0, 0, gain / loss)`:
a NaN loss compares as not-equal-to-zero and NaN/NaN is NaN, so the result
is NaN exactly where the loss average is NaN. -/
def rsOf (g l : Option ℚ) : Option ℚ :=
  match l with
  | none => none
  | some lv =>
    if lv = 0 then some 0
    else
      match g with
      | none => none
      | some gv => some (gv / lv)

/-- rsiGainAvg is the rolling mean of the gain column inside calculate_rsi. -/
def rsiGainAvg (data : List ℚ) (window : Nat) : Series :=
  rollingMean window ((seriesDiff data).map gainOf)

/-- rsiLossAvg is the rolling mean of the loss column inside calculate_rsi. -/
def rsiLossAvg (data : List ℚ) (window : Nat) : Series :=
  rollingMean window ((seriesDiff data).map lossOf)

/-- calculate_rsi models lines 37-44 of the source: the returned series is
`100 - 100/(1+rs)` over the `np.where` combination of the two rolling means. -/
def calculate_rsi (data : List ℚ) (window : Nat := 14) : Series :=
  (List.zipWith rsOf (rsiGainAvg data window) (rsiLossAvg data window)).map
    (Option.map (fun rs => 100 - 100 / (1 + rs)))

/-- nondegenerateChanges counts the nonzero daily changes of a close series. -/
def nondegenerateChanges (closes : List ℚ) : Nat :=
  (((seriesDiff closes).filterMap id).filter (fun d => decide (d ≠ 0))).length

/-! ## IndicatorEngine: calculate_macd (lines 49-59) -/

/-- ewmAlpha is the smoothing weight 2/(span+1) used by `ewm(span=s)`. -/
def ewmAlpha (span : Nat) : ℚ := 2 / ((span : ℚ) + 1)

/-- ewmGo unfolds the `adjust=False` exponential-moving-average recurrence
`y_i = (1-alpha) * y_(i-1) + alpha * x_i` from a previous output value. -/
def ewmGo (alpha : ℚ) (prev : ℚ) : List ℚ → List ℚ
  | [] => []
  | x :: rest =>
    ((1 - alpha) * prev + alpha * x) :: ewmGo alpha ((1 - alpha) * prev + alpha * x) rest

/-- ewmMean models `data.ewm(span=span, adjust=False).mean()`: seeded by the
first value, then the recurrence, no bias adjustment. -/
def ewmMean (span : Nat) : List ℚ → List ℚ
  | [] => []
  | x :: rest => x :: ewmGo (ewmAlpha span) x rest

/-- macdLine is `short_ema - long_ema` (line 54 of the source). -/
def macdLine (data : List ℚ) (short_window long_window : Nat) : List ℚ :=
  List.zipWith (fun a b => a - b) (ewmMean short_window data) (ewmMean long_window data)

/-- calculate_macd models lines 49-56: it returns the MACD line minus its
signal EMA, i.e. the histogram/oscillator, not the raw MACD line. -/
def calculate_macd (data : List ℚ) (short_window : Nat := 12) (long_window : Nat := 26)
    (signal_window : Nat := 9) : List ℚ :=
  List.zipWith (fun a b => a - b) (macdLine data short_window long_window)
    (ewmMean signal_window (macdLine data short_window long_window))

/-! ## Degraded mode of the two indicator functions (lines 45-47 and 57-59) -/

/-- zeroSeries models `np.zeros(n)` viewed as an indicator column: every
entry is a defined 0. -/
def zeroSeries (n : Nat) : Series := List.replicate n (some (0 : ℚ))

/-- calculate_rsi_guarded models the whole try/except body of calculate_rsi:
`fault = some msg` is the oracle for an exception raised during the internal
computation, in which case the handler reports it and returns `np.zeros(len(data))`. -/
def calculate_rsi_guarded (fault : Option String) (data : List ℚ) (window : Nat := 14) :
    Series × Option String :=
  match fault with
  | none => (calculate_rsi data window, none)
  | some msg => (zeroSeries data.length, some ("IndicatorComputeError: " ++ msg))

/-- calculate_macd_guarded models the try/except body of calculate_macd the
same way; the zero fill is a plain numeric column. -/
def calculate_macd_guarded (fault : Option String) (data : List ℚ) :
    List ℚ × Option String :=
  match fault with
  | none => (calculate_macd data 12 26 9, none)
  | some msg => (List.replicate data.length (0 : ℚ), some ("IndicatorComputeError: " ++ msg))

/-! ## FeatureAssembler (lines 79-81) -/

/-- dropnaZip models assigning the RSI and MACD columns onto the price frame
and then `data.dropna(inplace=True)`: rows are kept in order, and a row
survives exactly when both indicator entries are defined. -/
def dropnaZip : List (ℚ × ℚ) → Series → Series → List (ℚ × ℚ × ℚ × ℚ)
  | d :: ds, r :: rs, m :: ms =>
    (match r, m with
     | some rv, some mv => (d.1, d.2, rv, mv) :: dropnaZip ds rs ms
     | _, _ => dropnaZip ds rs ms)
  | _, _, _ => []

/-- featureTable is the assembled feature table of lines 79-81: close and
volume zipped with the two computed indicators, NaN rows dropped. -/
def featureTable (data : List (ℚ × ℚ)) : List (ℚ × ℚ × ℚ × ℚ) :=
  dropnaZip data (calculate_rsi (data.map Prod.fst) 14)
    ((calculate_macd (data.map Prod.fst) 12 26 9).map some)

/-! ## WindowExtractor (lines 105-107) -/

/-- npTailSlice models the numpy slice `xs[-n:]`: the last n rows, or the
whole array when fewer than n rows exist. -/
def npTailSlice (n : Nat) (xs : List (ℚ × ℚ × ℚ × ℚ)) : List (ℚ × ℚ × ℚ × ℚ) :=
  xs.drop (xs.length - n)

/-- reshapeWindow models `.reshape(1, LOOKBACK_DAYS, 4)`: it succeeds exactly
when the element count matches, producing the single-sample window, and
raises ValueError otherwise. -/
def reshapeWindow (rows : List (ℚ × ℚ × ℚ × ℚ)) :
    Except PyError (List (List (ℚ × ℚ × ℚ × ℚ))) :=
  if rows.length * 4 = 1 * LOOKBACK_DAYS * 4 then Except.ok [rows]
  else Except.error PyError.valueError

/-- ErrorKind enumerates the outcomes the source signals through its dialog
boxes, plus `uncaughtFault` for an exception raised outside every try block. -/
inductive ErrorKind
  | dataFetch
  | emptyData
  | insufficientData
  | modelNotFound
  | modelLoadOther
  | prediction
  | uncaughtFault
deriving DecidableEq, Repr

/-- windowStage is the slice-and-reshape step together with the surrounding
try/except of lines 105-112, which reports any exception as the prediction
error kind. -/
def windowStage (scaled : List (ℚ × ℚ × ℚ × ℚ)) :
    Except ErrorKind (List (List (ℚ × ℚ × ℚ × ℚ))) :=
  match reshapeWindow (npTailSlice LOOKBACK_DAYS scaled) with
  | Except.error _ => Except.error ErrorKind.prediction
  | Except.ok w => Except.ok w

/-! ## DecisionMapper (lines 114-124) -/

/-- np_argmax_core computes the first index achieving the maximum of a
nonempty list (the `np.argmax` tie-break). -/
def np_argmax_core : List ℚ → Nat
  | [] => 0
  | [_] => 0
  | x :: y :: rest =>
    if x < (y :: rest).getD (np_argmax_core (y :: rest)) 0 then np_argmax_core (y :: rest) + 1
    else 0

/-- np_argmax models `np.argmax`, which raises ValueError on an empty array. -/
def np_argmax (xs : List ℚ) : Except PyError Nat :=
  match xs with
  | [] => Except.error PyError.valueError
  | _ :: _ => Except.ok (np_argmax_core xs)

/-- decisionMapper models lines 114-124: argmax, confidence, label lookup
with the "Unknown" default, and the direction branches. -/
def decisionMapper (prediction : List ℚ) : Except PyError TrendPrediction :=
  match np_argmax prediction with
  | Except.error e => Except.error e
  | Except.ok best_class =>
    Except.ok
      { classIndex := best_class
        label := (PERCENTAGE_MOVES best_class).getD "Unknown"
        direction :=
          if best_class = 0 then Direction.Neutral
          else if best_class ≤ 5 then Direction.Up
          else Direction.Down
        confidencePct := prediction.getD best_class 0 * 100 }

/-! ## Pipeline orchestration (predict_stock_trend, lines 61-127) -/

/-- LoadFail distinguishes the two except clauses of the model/scaler
loading block (lines 93-103). -/
inductive LoadFail
  | fileNotFound
  | otherFailure
deriving DecidableEq, Repr

/-- Externals bundles the external collaborators: artifact loads that may
fail, the scaler transform, and the classifier. -/
structure Externals where
  modelLoad : Except LoadFail Unit
  scalerLoad : Except LoadFail Unit
  transform : List (ℚ × ℚ × ℚ × ℚ) → List (ℚ × ℚ × ℚ × ℚ)
  modelPredict : List (List (ℚ × ℚ × ℚ × ℚ)) → List (List ℚ)

/-- ExtCall is one recorded invocation of an external collaborator. -/
inductive ExtCall
  | loadModelCall
  | loadScalerCall
  | transformCall
  | predictCall
deriving DecidableEq, Repr

/-- predict_stock_trend models the pipeline body from the point where the
fetched data is available (line 73) to the final decision, returning the
outcome together with the list of external invocations in order. -/
def predict_stock_trend (ext : Externals) (data : List (ℚ × ℚ)) :
    Except ErrorKind TrendPrediction × List ExtCall :=
  if data.length = 0 then (Except.error ErrorKind.emptyData, [])
  else if (featureTable data).length < LOOKBACK_DAYS then
    (Except.error ErrorKind.insufficientData, [])
  else
    match ext.modelLoad with
    | Except.error LoadFail.fileNotFound =>
        (Except.error ErrorKind.modelNotFound, [ExtCall.loadModelCall])
    | Except.error LoadFail.otherFailure =>
        (Except.error ErrorKind.modelLoadOther, [ExtCall.loadModelCall])
    | Except.ok _ =>
      match ext.scalerLoad with
      | Except.error LoadFail.fileNotFound =>
          (Except.error ErrorKind.modelNotFound, [ExtCall.loadModelCall, ExtCall.loadScalerCall])
      | Except.error LoadFail.otherFailure =>
          (Except.error ErrorKind.modelLoadOther, [ExtCall.loadModelCall, ExtCall.loadScalerCall])
      | Except.ok _ =>
        match windowStage (ext.transform (featureTable data)) with
        | Except.error e =>
            (Except.error e,
             [ExtCall.loadModelCall, ExtCall.loadScalerCall, ExtCall.transformCall])
        | Except.ok w =>
          match (ext.modelPredict w)[0]? with
          | none =>
              (Except.error ErrorKind.prediction,
               [ExtCall.loadModelCall, ExtCall.loadScalerCall, ExtCall.transformCall,
                ExtCall.predictCall])
          | some prediction =>
            match decisionMapper prediction with
            | Except.error _ =>
                (Except.error ErrorKind.uncaughtFault,
                 [ExtCall.loadModelCall, ExtCall.loadScalerCall, ExtCall.transformCall,
                  ExtCall.predictCall])
            | Except.ok p =>
                (Except.ok p,
                 [ExtCall.loadModelCall, ExtCall.loadScalerCall, ExtCall.transformCall,
                  ExtCall.predictCall])

/-! ## Helper lemmas about lists -/

theorem mem_zipWith_cases {α β γ : Type} (f : α → β → γ) :
    ∀ (as : List α) (bs : List β) (c : γ), c ∈ List.zipWith f as bs →
      ∃ a ∈ as, ∃ b ∈ bs, c = f a b := by
  intro as
  induction as with
  | nil => intro bs c hc; simp at hc
  | cons a as ih =>
    intro bs c hc
    cases bs with
    | nil => simp at hc
    | cons b bs =>
      simp only [List.zipWith_cons_cons, List.mem_cons] at hc
      rcases hc with h | h
      · exact ⟨a, by simp, b, by simp, h⟩
      · rcases ih bs c h with ⟨a2, ha2, b2, hb2, hcc⟩
        exact ⟨a2, by simp [ha2], b2, by simp [hb2], hcc⟩

theorem zipWith_replicate_append {α β γ : Type} (f : α → β → γ) (n : Nat) (a : α) (b : β)
    (as : List α) (bs : List β) :
    List.zipWith f (List.replicate n a ++ as) (List.replicate n b ++ bs) =
      List.replicate n (f a b) ++ List.zipWith f as bs := by
  induction n with
  | zero => simp
  | succ k ih => simp [List.replicate_succ, ih]

/-! ## Lemmas about seriesDiff and rollingMean -/

theorem seriesDiff_length (xs : List ℚ) : (seriesDiff xs).length = xs.length := by
  cases xs with
  | nil => rfl
  | cons x rest => simp [seriesDiff]

theorem rollingMean_length (w : Nat) (xs : List ℚ) :
    (rollingMean w xs).length = xs.length := by
  simp [rollingMean]

theorem rollingVals_length (w : Nat) (xs : List ℚ) :
    (rollingVals w xs).length = xs.length + 1 - w := by
  simp [rollingVals]

theorem rollingMean_decomp (w : Nat) (hw : 0 < w) (xs : List ℚ) :
    rollingMean w xs =
      List.replicate (min xs.length (w - 1)) none ++ (rollingVals w xs).map some := by
  rcases le_or_lt xs.length (w - 1) with hle | hlt
  · have h0 : xs.length + 1 - w = 0 := by omega
    have hmin : min xs.length (w - 1) = xs.length := by omega
    rw [hmin, rollingVals, h0]
    simp only [List.range_zero, List.map_nil, List.append_nil]
    rw [rollingMean]
    apply List.eq_replicate_iff.mpr
    refine ⟨by simp, ?_⟩
    intro bb hb
    rcases List.mem_map.mp hb with ⟨i, hi, hbi⟩
    have hni : ¬ (w ≤ i + 1) := by
      have := List.mem_range.mp hi; omega
    rw [if_neg hni] at hbi
    exact hbi.symm
  · have hw2 : w ≤ xs.length := by omega
    have hmin : min xs.length (w - 1) = w - 1 := by omega
    obtain ⟨k, hk⟩ : ∃ k, xs.length = (w - 1) + k := ⟨xs.length + 1 - w, by omega⟩
    have hk2 : xs.length + 1 - w = k := by omega
    rw [hmin, rollingVals, hk2, rollingMean]
    conv_lhs => rw [hk]
    rw [List.range_add, List.map_append]
    congr 1
    · apply List.eq_replicate_iff.mpr
      refine ⟨by simp, ?_⟩
      intro bb hb
      rcases List.mem_map.mp hb with ⟨i, hi, hbi⟩
      have hib := List.mem_range.mp hi
      have hni : ¬ (w ≤ i + 1) := by omega
      rw [if_neg hni] at hbi
      exact hbi.symm
    · rw [List.map_map, List.map_map]
      apply List.map_congr_left
      intro j hj
      simp only [Function.comp_apply]
      have hcond : w ≤ w - 1 + j + 1 := by omega
      rw [if_pos hcond]
      have e1 : w - 1 + j + 1 = j + w := by omega
      rw [e1]
      have e2 : j + w - w = j := by omega
      rw [e2]

theorem rollingMean_defined_nonneg (w : Nat) (xs : List ℚ) (hxs : ∀ x ∈ xs, 0 ≤ x)
    (v : ℚ) (hv : some v ∈ rollingMean w xs) : 0 ≤ v := by
  rcases List.mem_map.mp hv with ⟨i, hi, hbi⟩
  by_cases hc : w ≤ i + 1
  · rw [if_pos hc] at hbi
    have hv2 : v = ((xs.take (i + 1)).drop (i + 1 - w)).sum / (w : ℚ) := by
      have := Option.some.inj hbi
      exact this.symm
    rw [hv2]
    apply div_nonneg
    · apply List.sum_nonneg
      intro x hx
      exact hxs x (List.mem_of_mem_take (List.mem_of_mem_drop hx))
    · exact_mod_cast Nat.zero_le w
  · rw [if_neg hc] at hbi
    exact absurd hbi (by simp)

/-! ## Structure of calculate_rsi -/

theorem zipWith_rsOf_some (gv lv : List ℚ) :
    List.zipWith rsOf (gv.map some) (lv.map some) =
      (List.zipWith (fun g l => if l = 0 then 0 else g / l) gv lv).map some := by
  induction gv generalizing lv with
  | nil => simp
  | cons g gs ih =>
    cases lv with
    | nil => simp
    | cons l ls =>
      simp only [List.map_cons, List.zipWith_cons_cons, ih]
      congr 1
      by_cases h : l = 0 <;> simp [rsOf, h]

theorem calculate_rsi_length (data : List ℚ) (w : Nat) :
    (calculate_rsi data w).length = data.length := by
  simp [calculate_rsi, rsiGainAvg, rsiLossAvg, rollingMean_length, seriesDiff_length]

theorem calculate_rsi_decomp (data : List ℚ) (w : Nat) (hw : 0 < w) :
    calculate_rsi data w =
      List.replicate (min data.length (w - 1)) none ++
        ((List.zipWith (fun g l => if l = 0 then 0 else g / l)
            (rollingVals w ((seriesDiff data).map gainOf))
            (rollingVals w ((seriesDiff data).map lossOf))).map
          (fun rs => 100 - 100 / (1 + rs))).map some := by
  have hgl : ((seriesDiff data).map gainOf).length = data.length := by
    simp [seriesDiff_length]
  have hll : ((seriesDiff data).map lossOf).length = data.length := by
    simp [seriesDiff_length]
  rw [calculate_rsi, rsiGainAvg, rsiLossAvg,
    rollingMean_decomp w hw ((seriesDiff data).map gainOf),
    rollingMean_decomp w hw ((seriesDiff data).map lossOf), hgl, hll,
    zipWith_replicate_append, zipWith_rsOf_some, List.map_append, List.map_replicate,
    List.map_map, List.map_map]
  rfl

theorem calculate_rsi_exists_decomp (data : List ℚ) (w : Nat) (hw : 0 < w) :
    ∃ r : List ℚ, calculate_rsi data w =
      List.replicate (min data.length (w - 1)) none ++ r.map some := by
  exact ⟨(List.zipWith (fun g l => if l = 0 then 0 else g / l)
      (rollingVals w ((seriesDiff data).map gainOf))
      (rollingVals w ((seriesDiff data).map lossOf))).map
        (fun rs => 100 - 100 / (1 + rs)),
    calculate_rsi_decomp data w hw⟩

/-! ## Structure of dropnaZip and featureTable -/

theorem dropnaZip_cons_some (d : ℚ × ℚ) (ds : List (ℚ × ℚ)) (rv mv : ℚ) (rs ms : Series) :
    dropnaZip (d :: ds) (some rv :: rs) (some mv :: ms) =
      (d.1, d.2, rv, mv) :: dropnaZip ds rs ms := rfl

theorem dropnaZip_cons_noneL (d : ℚ × ℚ) (ds : List (ℚ × ℚ)) (m : Option ℚ)
    (rs ms : Series) :
    dropnaZip (d :: ds) (none :: rs) (m :: ms) = dropnaZip ds rs ms := rfl

theorem dropnaZip_cons_noneR (d : ℚ × ℚ) (ds : List (ℚ × ℚ)) (r : Option ℚ)
    (rs ms : Series) :
    dropnaZip (d :: ds) (r :: rs) (none :: ms) = dropnaZip ds rs ms := by
  cases r <;> rfl

theorem dropnaZip_proj (data : List (ℚ × ℚ)) :
    ∀ (w1 w2 : Nat) (r m : List ℚ),
      (List.replicate w1 (none : Option ℚ) ++ r.map some).length = data.length →
      (List.replicate w2 (none : Option ℚ) ++ m.map some).length = data.length →
      (dropnaZip data (List.replicate w1 none ++ r.map some)
          (List.replicate w2 none ++ m.map some)).map (fun row => (row.1, row.2.1)) =
        data.drop (max w1 w2) := by
  induction data with
  | nil =>
    intro w1 w2 r m h1 h2
    simp only [List.length_nil, List.length_append, List.length_replicate,
      List.length_map] at h1 h2
    have hw1 : w1 = 0 := by omega
    have hr : r = [] := by
      cases r with
      | nil => rfl
      | cons a as => simp only [List.length_cons] at h1; omega
    subst hw1; subst hr
    simp [dropnaZip]
  | cons d ds ih =>
    intro w1 w2 r m h1 h2
    simp only [List.length_cons, List.length_append, List.length_replicate,
      List.length_map] at h1 h2
    cases w1 with
    | zero =>
      cases r with
      | nil => simp at h1
      | cons rv rs =>
        cases w2 with
        | zero =>
          cases m with
          | nil => simp at h2
          | cons mv ms =>
            simp only [List.replicate_zero, List.nil_append, List.map_cons]
            rw [dropnaZip_cons_some]
            have ihe := ih 0 0 rs ms
              (by simp only [List.length_append, List.length_replicate, List.length_map]
                  simp only [List.length_cons] at h1; omega)
              (by simp only [List.length_append, List.length_replicate, List.length_map]
                  simp only [List.length_cons] at h2; omega)
            simp only [List.replicate_zero, List.nil_append] at ihe
            simp [ihe]
        | succ k2 =>
          simp only [List.replicate_succ, List.replicate_zero, List.nil_append,
            List.map_cons, List.cons_append]
          rw [dropnaZip_cons_noneR]
          have ihe := ih 0 (k2 : Nat) rs m
            (by simp only [List.length_append, List.length_replicate, List.length_map]
                simp only [List.length_cons] at h1; omega)
            (by simp only [List.length_append, List.length_replicate, List.length_map]; omega)
          simp only [List.replicate_zero, List.nil_append] at ihe
          simp only [Nat.zero_max] at ihe ⊢
          rw [ihe, List.drop_succ_cons]
    | succ k1 =>
      cases w2 with
      | zero =>
        cases m with
        | nil => simp at h2
        | cons mv ms =>
          simp only [List.replicate_succ, List.replicate_zero, List.nil_append,
            List.map_cons, List.cons_append]
          rw [dropnaZip_cons_noneL]
          have ihe := ih (k1 : Nat) 0 r ms
            (by simp only [List.length_append, List.length_replicate, List.length_map]; omega)
            (by simp only [List.length_append, List.length_replicate, List.length_map]
                simp only [List.length_cons] at h2; omega)
          simp only [List.replicate_zero, List.nil_append] at ihe
          simp only [Nat.max_zero] at ihe ⊢
          rw [ihe, List.drop_succ_cons]
      | succ k2 =>
        simp only [List.replicate_succ, List.cons_append]
        rw [dropnaZip_cons_noneL]
        have ihe := ih (k1 : Nat) (k2 : Nat) r m
          (by simp only [List.length_append, List.length_replicate, List.length_map]; omega)
          (by simp only [List.length_append, List.length_replicate, List.length_map]; omega)
        rw [ihe, Nat.succ_max_succ, List.drop_succ_cons]

/-! ## Lengths and recurrence of the exponential moving averages -/

theorem ewmGo_length (alpha : ℚ) (prev : ℚ) (xs : List ℚ) :
    (ewmGo alpha prev xs).length = xs.length := by
  induction xs generalizing prev with
  | nil => rfl
  | cons x rest ih => simp [ewmGo, ih]

theorem ewmMean_length (span : Nat) (xs : List ℚ) :
    (ewmMean span xs).length = xs.length := by
  cases xs with
  | nil => rfl
  | cons x rest => simp [ewmMean, ewmGo_length]

theorem macdLine_length (data : List ℚ) (s l : Nat) :
    (macdLine data s l).length = data.length := by
  simp [macdLine, ewmMean_length]

theorem calculate_macd_length (data : List ℚ) (s l g : Nat) :
    (calculate_macd data s l g).length = data.length := by
  simp [calculate_macd, ewmMean_length, macdLine_length]

theorem ewmGo_getElem_opt (alpha : ℚ) :
    ∀ (xs : List ℚ) (p : ℚ) (i : Nat),
      (ewmGo alpha p xs)[i + 1]? =
        match (ewmGo alpha p xs)[i]?, xs[i + 1]? with
        | some prev, some x => some ((1 - alpha) * prev + alpha * x)
        | _, _ => none := by
  intro xs
  induction xs with
  | nil => intro p i; simp [ewmGo]
  | cons x rest ih =>
    intro p i
    cases i with
    | zero =>
      cases rest with
      | nil => simp [ewmGo]
      | cons y ys => simp [ewmGo]
    | succ j =>
      have h := ih ((1 - alpha) * p + alpha * x) j
      simpa [ewmGo] using h

theorem ewmMean_seed (span : Nat) (xs : List ℚ) : (ewmMean span xs)[0]? = xs[0]? := by
  cases xs <;> simp [ewmMean]

theorem ewmMean_recurrence (span : Nat) (xs : List ℚ) (i : Nat) :
    (ewmMean span xs)[i + 1]? =
      match (ewmMean span xs)[i]?, xs[i + 1]? with
      | some prev, some x => some ((1 - ewmAlpha span) * prev + ewmAlpha span * x)
      | _, _ => none := by
  cases xs with
  | nil => simp [ewmMean]
  | cons x rest =>
    cases i with
    | zero =>
      cases rest with
      | nil => simp [ewmMean, ewmGo]
      | cons y ys => simp [ewmMean, ewmGo]
    | succ j =>
      have h := ewmGo_getElem_opt (ewmAlpha span) rest x j
      simpa [ewmMean] using h

/-! ## Characterisation of featureTable -/

theorem featureTable_proj (data : List (ℚ × ℚ)) :
    (featureTable data).map (fun row => (row.1, row.2.1)) =
      data.drop (min data.length 13) := by
  obtain ⟨r, hr⟩ := calculate_rsi_exists_decomp (data.map Prod.fst) 14 (by norm_num)
  have hlen : (data.map Prod.fst).length = data.length := by simp
  have h1 : (List.replicate (min (data.map Prod.fst).length (14 - 1)) (none : Option ℚ) ++
      r.map some).length = data.length := by
    rw [← hr, calculate_rsi_length, hlen]
  have h2 : (List.replicate 0 (none : Option ℚ) ++
      (calculate_macd (data.map Prod.fst) 12 26 9).map some).length = data.length := by
    simp [calculate_macd_length]
  have hd := dropnaZip_proj data (min (data.map Prod.fst).length (14 - 1)) 0 r
    (calculate_macd (data.map Prod.fst) 12 26 9) h1 h2
  rw [featureTable, hr]
  have hm : ((calculate_macd (data.map Prod.fst) 12 26 9).map some : Series) =
      List.replicate 0 (none : Option ℚ) ++
        (calculate_macd (data.map Prod.fst) 12 26 9).map some := by simp
  rw [hm, hd, Nat.max_zero, hlen]

theorem featureTable_length (data : List (ℚ × ℚ)) :
    (featureTable data).length = data.length - 13 := by
  have h := featureTable_proj data
  have h2 : ((featureTable data).map (fun row => (row.1, row.2.1))).length =
      (data.drop (min data.length 13)).length := by rw [h]
  simp only [List.length_map, List.length_drop] at h2
  omega

/-! ## Pointwise properties of calculate_rsi -/

theorem gainOf_nonneg (d : Option ℚ) : 0 ≤ gainOf d := by
  cases d with
  | none => simp [gainOf]
  | some x =>
    by_cases h : 0 < x
    · simp [gainOf, h]; linarith
    · simp [gainOf, h]

theorem lossOf_nonneg (d : Option ℚ) : 0 ≤ lossOf d := by
  cases d with
  | none => simp [lossOf]
  | some x =>
    by_cases h : x < 0
    · simp [lossOf, h]; linarith
    · simp [lossOf, h]

theorem calculate_rsi_defined_iff (data : List ℚ) (w : Nat) (hw : 0 < w) (i : Nat)
    (hi : i < data.length) :
    ((calculate_rsi data w)[i]? = some none ↔ i < w - 1) := by
  obtain ⟨r, hr⟩ := calculate_rsi_exists_decomp data w hw
  have hlen := calculate_rsi_length data w
  rw [hr] at hlen
  simp only [List.length_append, List.length_replicate, List.length_map] at hlen
  rw [hr, List.getElem?_append]
  rcases lt_or_ge i (min data.length (w - 1)) with hlt | hge
  · rw [if_pos (by simpa using hlt), List.getElem?_replicate, if_pos hlt]
    constructor
    · intro _; omega
    · intro _; rfl
  · rw [if_neg (by simp; omega)]
    have hidx : i - (List.replicate (min data.length (w - 1)) (none : Option ℚ)).length <
        (r.map some).length := by
      simp only [List.length_replicate, List.length_map]
      omega
    rw [List.getElem?_eq_getElem hidx, List.getElem_map]
    constructor
    · intro hcontra
      exact absurd (Option.some.inj hcontra) (by simp)
    · intro hcontra; omega

theorem calculate_rsi_loss_zero (data : List ℚ) (w : Nat) (i : Nat)
    (h : (rsiLossAvg data w)[i]? = some (some 0)) :
    (calculate_rsi data w)[i]? = some (some 0) := by
  have hi : i < (rsiLossAvg data w).length := by
    by_contra hc
    rw [List.getElem?_eq_none (by omega)] at h
    exact absurd h (by simp)
  have hgi : i < (rsiGainAvg data w).length := by
    simp only [rsiGainAvg, rsiLossAvg, rollingMean_length] at hi ⊢
    simpa using hi
  rw [calculate_rsi, List.getElem?_map, List.getElem?_zipWith, h,
    List.getElem?_eq_getElem hgi]
  simp only [rsOf]
  norm_num

theorem calculate_rsi_mem_bounds (data : List ℚ) (w : Nat) (x : ℚ)
    (hx : some x ∈ calculate_rsi data w) : 0 ≤ x ∧ x ≤ 100 := by
  rcases List.mem_map.mp hx with ⟨o, ho, hxo⟩
  cases o with
  | none => simp at hxo
  | some rv =>
    simp only [Option.map_some'] at hxo
    have hxval : x = 100 - 100 / (1 + rv) := (Option.some.inj hxo).symm
    rcases mem_zipWith_cases rsOf _ _ _ ho with ⟨g, hg, l, hl, hval⟩
    have hrv : 0 ≤ rv := by
      cases l with
      | none => simp [rsOf] at hval
      | some lv =>
        by_cases hlz : lv = 0
        · have hrv0 : rv = 0 := by
            subst hlz
            exact Option.some.inj (by simpa [rsOf] using hval)
          simp [hrv0]
        · cases g with
          | none => simp [rsOf, hlz] at hval
          | some gv =>
            simp only [rsOf, if_neg hlz] at hval
            have hgv : 0 ≤ gv := by
              apply rollingMean_defined_nonneg w ((seriesDiff data).map gainOf)
              · intro a ha
                rcases List.mem_map.mp ha with ⟨dd, _, hdd⟩
                rw [← hdd]
                exact gainOf_nonneg dd
              · exact hg
            have hlv : 0 ≤ lv := by
              apply rollingMean_defined_nonneg w ((seriesDiff data).map lossOf)
              · intro a ha
                rcases List.mem_map.mp ha with ⟨dd, _, hdd⟩
                rw [← hdd]
                exact lossOf_nonneg dd
              · exact hl
            have hlvpos : 0 < lv := lt_of_le_of_ne hlv (Ne.symm hlz)
            have hrv2 : rv = gv / lv := Option.some.inj hval
            rw [hrv2]
            exact div_nonneg hgv (le_of_lt hlvpos)
    constructor
    · rw [hxval]
      have hb : 100 / (1 + rv) ≤ 100 := div_le_self (by norm_num) (by linarith)
      linarith
    · rw [hxval]
      have hb : 0 ≤ 100 / (1 + rv) := div_nonneg (by norm_num) (by linarith)
      linarith

/-! ## Properties of np_argmax_core -/

theorem np_argmax_core_lt (xs : List ℚ) (hne : xs ≠ []) :
    np_argmax_core xs < xs.length := by
  induction xs with
  | nil => exact absurd rfl hne
  | cons x rest ih =>
    cases rest with
    | nil => simp [np_argmax_core]
    | cons y ys =>
      have hr := ih (by simp)
      simp only [np_argmax_core]
      split
      · simp only [List.length_cons] at hr ⊢
        omega
      · simp

theorem np_argmax_core_is_max (xs : List ℚ) (j : Nat) (hj : j < xs.length) :
    xs.getD j 0 ≤ xs.getD (np_argmax_core xs) 0 := by
  induction xs generalizing j with
  | nil => simp at hj
  | cons x rest ih =>
    cases rest with
    | nil =>
      have hj0 : j = 0 := by simp at hj; omega
      subst hj0
      simp [np_argmax_core]
    | cons y ys =>
      simp only [np_argmax_core]
      split
      · rename_i hcond
        rw [List.getD_cons_succ]
        cases j with
        | zero =>
          rw [List.getD_cons_zero]
          exact le_of_lt hcond
        | succ j2 =>
          rw [List.getD_cons_succ]
          exact ih j2 (by simp at hj ⊢; omega)
      · rename_i hcond
        push_neg at hcond
        rw [List.getD_cons_zero]
        cases j with
        | zero => rw [List.getD_cons_zero]
        | succ j2 =>
          rw [List.getD_cons_succ]
          exact le_trans (ih j2 (by simp at hj ⊢; omega)) hcond

theorem np_argmax_core_first (xs : List ℚ) (j : Nat) (hj : j < np_argmax_core xs) :
    xs.getD j 0 < xs.getD (np_argmax_core xs) 0 := by
  induction xs generalizing j with
  | nil => simp [np_argmax_core] at hj
  | cons x rest ih =>
    cases rest with
    | nil => simp [np_argmax_core] at hj
    | cons y ys =>
      simp only [np_argmax_core] at hj ⊢
      split
      · rename_i hcond
        rw [List.getD_cons_succ]
        cases j with
        | zero =>
          rw [List.getD_cons_zero]
          exact hcond
        | succ j2 =>
          rw [List.getD_cons_succ]
          rw [if_pos hcond] at hj
          exact ih j2 (by omega)
      · rename_i hcond
        rw [if_neg hcond] at hj
        omega

/-! ## Claim theorems -/

/-- C6: for every close-price series, computeMACDOscillator returns a series
of the same length as the input regardless of magnitude or sign, equal to
(short EMA minus long EMA) minus the signal EMA of that difference, where
each EMA has weight 2/(span+1), is seeded by the first value, and applies
no bias adjustment. -/
theorem C6_macd_oscillator (data : List ℚ) (s l g : Nat) :
    (calculate_macd data s l g).length = data.length ∧
    calculate_macd data s l g =
      List.zipWith (fun a b => a - b) (macdLine data s l)
        (ewmMean g (macdLine data s l)) ∧
    (∀ span : Nat, (ewmMean span data)[0]? = data[0]?) ∧
    (∀ span i, (ewmMean span data)[i + 1]? =
      match (ewmMean span data)[i]?, data[i + 1]? with
      | some prev, some x => some ((1 - ewmAlpha span) * prev + ewmAlpha span * x)
      | _, _ => none) ∧
    (∀ span : Nat, ewmAlpha span = 2 / ((span : ℚ) + 1)) :=
  ⟨calculate_macd_length data s l g, rfl, fun span => ewmMean_seed span data,
    fun span i => ewmMean_recurrence span data i, fun _ => rfl⟩

/-- C8: when an exception is raised during the internal computation of
calculate_rsi or calculate_macd (modelled by the fault oracle), the handler
reports an IndicatorComputeError and still returns a zero-filled series
whose length equals the input length, so the pipeline is not aborted. -/
theorem C8_catch_and_zero_fill (closes : List ℚ) (w : Nat) (msg : String) :
    calculate_rsi_guarded (some msg) closes w =
      (zeroSeries closes.length, some ("IndicatorComputeError: " ++ msg)) ∧
    (calculate_rsi_guarded (some msg) closes w).1.length = closes.length ∧
    (∀ o ∈ (calculate_rsi_guarded (some msg) closes w).1, o = some 0) ∧
    calculate_macd_guarded (some msg) closes =
      (List.replicate closes.length 0, some ("IndicatorComputeError: " ++ msg)) ∧
    (calculate_macd_guarded (some msg) closes).1.length = closes.length ∧
    (∀ v ∈ (calculate_macd_guarded (some msg) closes).1, v = 0) := by
  refine ⟨rfl, by simp [calculate_rsi_guarded, zeroSeries], ?_, rfl,
    by simp [calculate_macd_guarded], ?_⟩
  · intro o ho
    simp only [calculate_rsi_guarded, zeroSeries] at ho
    exact List.eq_of_mem_replicate ho
  · intro v hv
    simp only [calculate_macd_guarded] at hv
    exact List.eq_of_mem_replicate hv

/-- C3: for a close-price series with at least 14 non-degenerate daily
changes, calculate_rsi preserves length, every defined entry lies in
[0, 100], and every entry whose trailing 14-day average loss is 0 equals
exactly 0 (the rs = 0 convention). -/
theorem C3_rsi_range (closes : List ℚ) (hchanges : 14 ≤ nondegenerateChanges closes) :
    (calculate_rsi closes 14).length = closes.length ∧
    (∀ x : ℚ, some x ∈ calculate_rsi closes 14 → 0 ≤ x ∧ x ≤ 100) ∧
    (∀ i : Nat, (rsiLossAvg closes 14)[i]? = some (some 0) →
      (calculate_rsi closes 14)[i]? = some (some 0)) :=
  ⟨calculate_rsi_length closes 14,
    fun x hx => calculate_rsi_mem_bounds closes 14 x hx,
    fun i hi => calculate_rsi_loss_zero closes 14 i hi⟩

/-- Witness for C3 at a 15-day strictly increasing close series, which has
14 nonzero daily changes. -/
theorem C3_rsi_range_witness :
    14 ≤ nondegenerateChanges
        [1, 2, 3, 4, 5, 6, 7, 8, 9, 10, 11, 12, 13, 14, 15] ∧
    ((calculate_rsi [1, 2, 3, 4, 5, 6, 7, 8, 9, 10, 11, 12, 13, 14, 15] 14).length =
        ([1, 2, 3, 4, 5, 6, 7, 8, 9, 10, 11, 12, 13, 14, 15] : List ℚ).length ∧
      (∀ x : ℚ, some x ∈ calculate_rsi [1, 2, 3, 4, 5, 6, 7, 8, 9, 10, 11, 12, 13, 14, 15] 14 →
        0 ≤ x ∧ x ≤ 100) ∧
      (∀ i : Nat,
        (rsiLossAvg [1, 2, 3, 4, 5, 6, 7, 8, 9, 10, 11, 12, 13, 14, 15] 14)[i]? =
            some (some 0) →
        (calculate_rsi [1, 2, 3, 4, 5, 6, 7, 8, 9, 10, 11, 12, 13, 14, 15] 14)[i]? =
          some (some 0))) :=
  ⟨by norm_num [nondegenerateChanges, seriesDiff, List.filterMap_cons, List.filter_cons],
    C3_rsi_range [1, 2, 3, 4, 5, 6, 7, 8, 9, 10, 11, 12, 13, 14, 15]
      (by norm_num [nondegenerateChanges, seriesDiff, List.filterMap_cons, List.filter_cons])⟩

/-- C4: the FeatureAssembler, given any price series and indicator columns
with w1 and w2 leading undefined entries followed by defined values, yields
exactly N - max(w1, w2) rows, and the surviving rows are the original price
rows in chronological order. -/
theorem C4_assembler (data : List (ℚ × ℚ)) (w1 w2 : Nat) (r m : List ℚ)
    (rsi macd : Series)
    (hrsi : rsi = List.replicate w1 none ++ r.map some)
    (hmacd : macd = List.replicate w2 none ++ m.map some)
    (hlen1 : rsi.length = data.length)
    (hlen2 : macd.length = data.length) :
    (dropnaZip data rsi macd).length = data.length - max w1 w2 ∧
    (dropnaZip data rsi macd).map (fun row => (row.1, row.2.1)) =
      data.drop (max w1 w2) := by
  subst hrsi
  subst hmacd
  have hp := dropnaZip_proj data w1 w2 r m hlen1 hlen2
  refine ⟨?_, hp⟩
  have hlen :
      ((dropnaZip data (List.replicate w1 none ++ r.map some)
          (List.replicate w2 none ++ m.map some)).map
        (fun row => (row.1, row.2.1))).length =
      (data.drop (max w1 w2)).length := by rw [hp]
  simpa using hlen

/-- Witness for C4 on a 4-row series with warm-ups 2 and 1. -/
theorem C4_assembler_witness :
    ((List.replicate 2 (none : Option ℚ) ++ ([5, 6] : List ℚ).map some) =
        List.replicate 2 (none : Option ℚ) ++ ([5, 6] : List ℚ).map some) ∧
    ((List.replicate 2 (none : Option ℚ) ++ ([5, 6] : List ℚ).map some).length =
        ([((1 : ℚ), (1 : ℚ)), (2, 2), (3, 3), (4, 4)] : List (ℚ × ℚ)).length) ∧
    ((dropnaZip [((1 : ℚ), (1 : ℚ)), (2, 2), (3, 3), (4, 4)]
        (List.replicate 2 none ++ ([5, 6] : List ℚ).map some)
        (List.replicate 1 none ++ ([7, 8, 9] : List ℚ).map some)).length =
      ([((1 : ℚ), (1 : ℚ)), (2, 2), (3, 3), (4, 4)] : List (ℚ × ℚ)).length - max 2 1 ∧
    (dropnaZip [((1 : ℚ), (1 : ℚ)), (2, 2), (3, 3), (4, 4)]
        (List.replicate 2 none ++ ([5, 6] : List ℚ).map some)
        (List.replicate 1 none ++ ([7, 8, 9] : List ℚ).map some)).map
      (fun row => (row.1, row.2.1)) =
      ([((1 : ℚ), (1 : ℚ)), (2, 2), (3, 3), (4, 4)] : List (ℚ × ℚ)).drop (max 2 1)) :=
  ⟨rfl, by decide,
    C4_assembler [((1 : ℚ), (1 : ℚ)), (2, 2), (3, 3), (4, 4)] 2 1 [5, 6] [7, 8, 9]
      (List.replicate 2 none ++ ([5, 6] : List ℚ).map some)
      (List.replicate 1 none ++ ([7, 8, 9] : List ℚ).map some)
      rfl rfl (by decide) (by decide)⟩

/-- C7: for every close-price series and positive window, calculate_rsi
preserves length and its entries are undefined exactly at the indices below
window - 1. -/
theorem C7_rsi_warmup (closes : List ℚ) (w : Nat) (hw : 0 < w) :
    (calculate_rsi closes w).length = closes.length ∧
    ∀ i : Nat, i < closes.length →
      ((calculate_rsi closes w)[i]? = some none ↔ i < w - 1) :=
  ⟨calculate_rsi_length closes w,
    fun i hi => calculate_rsi_defined_iff closes w hw i hi⟩

/-- Witness for C7 at a 20-day series and the default window 14. -/
theorem C7_rsi_warmup_witness :
    0 < 14 ∧
    ((calculate_rsi [1, 2, 3, 4, 5, 6, 7, 8, 9, 10,
        11, 12, 13, 14, 15, 16, 17, 18, 19, 20] 14).length =
        ([1, 2, 3, 4, 5, 6, 7, 8, 9, 10,
          11, 12, 13, 14, 15, 16, 17, 18, 19, 20] : List ℚ).length ∧
      ∀ i : Nat, i < ([1, 2, 3, 4, 5, 6, 7, 8, 9, 10,
          11, 12, 13, 14, 15, 16, 17, 18, 19, 20] : List ℚ).length →
        ((calculate_rsi [1, 2, 3, 4, 5, 6, 7, 8, 9, 10,
            11, 12, 13, 14, 15, 16, 17, 18, 19, 20] 14)[i]? = some none ↔
          i < 14 - 1)) :=
  ⟨by decide,
    C7_rsi_warmup [1, 2, 3, 4, 5, 6, 7, 8, 9, 10,
      11, 12, 13, 14, 15, 16, 17, 18, 19, 20] 14 (by decide)⟩

theorem PERCENTAGE_MOVES_spec (c : Nat) :
    (PERCENTAGE_MOVES c).getD "Unknown" = specLabelTable.getD c "Unknown" := by
  rcases Nat.lt_or_ge c 11 with hlt | hge
  · interval_cases c <;> rfl
  · obtain ⟨k, rfl⟩ : ∃ k, c = k + 11 := ⟨c - 11, by omega⟩
    rfl

/-- C1: for every probability vector of length 11, the DecisionMapper picks
the first index achieving the maximum, sets confidencePct to the selected
probability times 100, takes the label from the fixed 11-entry table, and
derives the direction as Neutral / Up / Down from the index ranges 0, 1..5
and 6..10. -/
theorem C1_decision_mapper (probs : List ℚ) (hlen : probs.length = 11) :
    ∃ p : TrendPrediction,
      decisionMapper probs = Except.ok p ∧
      p.classIndex < 11 ∧
      (∀ j, j < 11 → probs.getD j 0 ≤ probs.getD p.classIndex 0) ∧
      (∀ j, j < p.classIndex → probs.getD j 0 < probs.getD p.classIndex 0) ∧
      p.confidencePct = probs.getD p.classIndex 0 * 100 ∧
      p.label = specLabelTable.getD p.classIndex "Unknown" ∧
      (p.classIndex = 0 → p.direction = Direction.Neutral) ∧
      (1 ≤ p.classIndex ∧ p.classIndex ≤ 5 → p.direction = Direction.Up) ∧
      (6 ≤ p.classIndex ∧ p.classIndex ≤ 10 → p.direction = Direction.Down) := by
  cases probs with
  | nil => simp at hlen
  | cons q qs =>
    refine ⟨_, rfl, ?_, ?_, ?_, rfl, ?_, ?_, ?_, ?_⟩
    · have hc := np_argmax_core_lt (q :: qs) (by simp)
      rw [hlen] at hc
      exact hc
    · intro j hj
      exact np_argmax_core_is_max (q :: qs) j (by rw [hlen]; exact hj)
    · intro j hj
      exact np_argmax_core_first (q :: qs) j hj
    · exact PERCENTAGE_MOVES_spec (np_argmax_core (q :: qs))
    · intro h0
      have h0c : np_argmax_core (q :: qs) = 0 := h0
      show (if np_argmax_core (q :: qs) = 0 then Direction.Neutral
        else if np_argmax_core (q :: qs) ≤ 5 then Direction.Up else Direction.Down) =
        Direction.Neutral
      rw [if_pos h0c]
    · intro hup
      have h1c : 1 ≤ np_argmax_core (q :: qs) := hup.1
      have h5c : np_argmax_core (q :: qs) ≤ 5 := hup.2
      show (if np_argmax_core (q :: qs) = 0 then Direction.Neutral
        else if np_argmax_core (q :: qs) ≤ 5 then Direction.Up else Direction.Down) =
        Direction.Up
      rw [if_neg (by omega), if_pos h5c]
    · intro hdown
      have h6c : 6 ≤ np_argmax_core (q :: qs) := hdown.1
      show (if np_argmax_core (q :: qs) = 0 then Direction.Neutral
        else if np_argmax_core (q :: qs) ≤ 5 then Direction.Up else Direction.Down) =
        Direction.Down
      rw [if_neg (by omega), if_neg (by omega)]

/-- Witness for C1 at an 11-entry vector whose maximum is at index 4. -/
theorem C1_decision_mapper_witness :
    ([(0 : ℚ), 1, 1, 1, 7, 1, 1, 1, 1, 1, 1] : List ℚ).length = 11 ∧
    ∃ p : TrendPrediction,
      decisionMapper [(0 : ℚ), 1, 1, 1, 7, 1, 1, 1, 1, 1, 1] = Except.ok p ∧
      p.classIndex < 11 ∧
      (∀ j, j < 11 →
        ([(0 : ℚ), 1, 1, 1, 7, 1, 1, 1, 1, 1, 1] : List ℚ).getD j 0 ≤
          ([(0 : ℚ), 1, 1, 1, 7, 1, 1, 1, 1, 1, 1] : List ℚ).getD p.classIndex 0) ∧
      (∀ j, j < p.classIndex →
        ([(0 : ℚ), 1, 1, 1, 7, 1, 1, 1, 1, 1, 1] : List ℚ).getD j 0 <
          ([(0 : ℚ), 1, 1, 1, 7, 1, 1, 1, 1, 1, 1] : List ℚ).getD p.classIndex 0) ∧
      p.confidencePct =
        ([(0 : ℚ), 1, 1, 1, 7, 1, 1, 1, 1, 1, 1] : List ℚ).getD p.classIndex 0 * 100 ∧
      p.label = specLabelTable.getD p.classIndex "Unknown" ∧
      (p.classIndex = 0 → p.direction = Direction.Neutral) ∧
      (1 ≤ p.classIndex ∧ p.classIndex ≤ 5 → p.direction = Direction.Up) ∧
      (6 ≤ p.classIndex ∧ p.classIndex ≤ 10 → p.direction = Direction.Down) :=
  ⟨rfl, C1_decision_mapper [(0 : ℚ), 1, 1, 1, 7, 1, 1, 1, 1, 1, 1] rfl⟩

theorem reshapeWindow_spec (rows : List (ℚ × ℚ × ℚ × ℚ)) :
    reshapeWindow rows =
      if rows.length = 30 then Except.ok [rows] else Except.error PyError.valueError := by
  unfold reshapeWindow
  by_cases h : rows.length = 30
  · rw [if_pos h, if_pos (by rw [h]; rfl)]
  · rw [if_neg h, if_neg (by simp only [LOOKBACK_DAYS]; omega)]

theorem windowStage_spec (scaled : List (ℚ × ℚ × ℚ × ℚ)) :
    windowStage scaled =
      if (npTailSlice LOOKBACK_DAYS scaled).length = 30 then
        Except.ok [npTailSlice LOOKBACK_DAYS scaled]
      else Except.error ErrorKind.prediction := by
  unfold windowStage
  rw [reshapeWindow_spec]
  by_cases h : (npTailSlice LOOKBACK_DAYS scaled).length = 30
  · rw [if_pos h, if_pos h]
  · rw [if_neg h, if_neg h]

/-- C2 counterexample: on a 29-row normalized table the extraction stage
does not signal InsufficientDataError; the reshape raises and the stage
reports the prediction error kind instead. -/
theorem C2_counterexample :
    windowStage (List.replicate 29 ((1 : ℚ), (1 : ℚ), (1 : ℚ), (1 : ℚ))) =
      Except.error ErrorKind.prediction ∧
    ErrorKind.prediction ≠ ErrorKind.insufficientData :=
  ⟨rfl, by decide⟩

/-- C2 amended: the WindowExtractor performs no independent row-count
check; with fewer than 30 rows the reshape fails and the surrounding
handler reports the prediction error kind, and with at least 30 rows it
succeeds, producing the (1, 30, 4) window whose rows are exactly the last
30 rows of the table in their original order. -/
theorem C2_window_stage (table : List (ℚ × ℚ × ℚ × ℚ)) :
    (table.length < 30 → windowStage table = Except.error ErrorKind.prediction) ∧
    (30 ≤ table.length →
      windowStage table = Except.ok [table.drop (table.length - 30)] ∧
      (table.drop (table.length - 30)).length = 30) := by
  constructor
  · intro hlt
    have hlen : (npTailSlice LOOKBACK_DAYS table).length = table.length := by
      simp only [npTailSlice, List.length_drop, LOOKBACK_DAYS]
      omega
    rw [windowStage_spec, if_neg (by omega)]
  · intro hge
    have hlen : (npTailSlice LOOKBACK_DAYS table).length = 30 := by
      simp only [npTailSlice, List.length_drop, LOOKBACK_DAYS]
      omega
    refine ⟨?_, hlen⟩
    rw [windowStage_spec, if_pos hlen]
    rfl

/-- Witness for C2 at a 31-row table. -/
theorem C2_window_stage_witness :
    30 ≤ (List.replicate 31 ((1 : ℚ), (1 : ℚ), (1 : ℚ), (1 : ℚ))).length ∧
    (windowStage (List.replicate 31 ((1 : ℚ), (1 : ℚ), (1 : ℚ), (1 : ℚ))) =
        Except.ok [(List.replicate 31 ((1 : ℚ), (1 : ℚ), (1 : ℚ), (1 : ℚ))).drop
          ((List.replicate 31 ((1 : ℚ), (1 : ℚ), (1 : ℚ), (1 : ℚ))).length - 30)] ∧
      ((List.replicate 31 ((1 : ℚ), (1 : ℚ), (1 : ℚ), (1 : ℚ))).drop
        ((List.replicate 31 ((1 : ℚ), (1 : ℚ), (1 : ℚ), (1 : ℚ))).length - 30)).length = 30) :=
  ⟨by decide,
    (C2_window_stage (List.replicate 31 ((1 : ℚ), (1 : ℚ), (1 : ℚ), (1 : ℚ)))).2 (by decide)⟩

/-- C5: on any 10-row price series the pipeline terminates with
InsufficientDataError and records no external invocation: neither the
scaler nor the classifier, including their artifact loads, is reached. -/
theorem C5_short_series (ext : Externals) (data : List (ℚ × ℚ))
    (hlen : data.length = 10) :
    predict_stock_trend ext data = (Except.error ErrorKind.insufficientData, []) := by
  have hft : (featureTable data).length = data.length - 13 := featureTable_length data
  simp only [predict_stock_trend]
  rw [if_neg (by omega)]
  rw [if_pos (by rw [hft, hlen]; decide)]

/-- Witness for C5 at a concrete 10-row series and trivial externals. -/
theorem C5_short_series_witness :
    ([((1 : ℚ), (1 : ℚ)), (2, 1), (3, 1), (4, 1), (5, 1),
        (6, 1), (7, 1), (8, 1), (9, 1), (10, 1)] : List (ℚ × ℚ)).length = 10 ∧
    predict_stock_trend
      { modelLoad := Except.ok (), scalerLoad := Except.ok (),
        transform := fun t => t, modelPredict := fun _ => [[]] }
      [((1 : ℚ), (1 : ℚ)), (2, 1), (3, 1), (4, 1), (5, 1),
        (6, 1), (7, 1), (8, 1), (9, 1), (10, 1)] =
      (Except.error ErrorKind.insufficientData, []) :=
  ⟨rfl,
    C5_short_series
      { modelLoad := Except.ok (), scalerLoad := Except.ok (),
        transform := fun t => t, modelPredict := fun _ => [[]] }
      [((1 : ℚ), (1 : ℚ)), (2, 1), (3, 1), (4, 1), (5, 1),
        (6, 1), (7, 1), (8, 1), (9, 1), (10, 1)] rfl⟩

/-- C9 counterexample: a length-5 probability vector is not rejected; the
DecisionMapper returns a TrendPrediction for it instead of failing fast. -/
theorem C9_counterexample :
    ∃ p : TrendPrediction,
      decisionMapper [(1 : ℚ), 1, 1, 6, 1] = Except.ok p ∧
      p.classIndex = 3 ∧ p.label = "+10%" ∧ p.direction = Direction.Up ∧
      ([(1 : ℚ), 1, 1, 6, 1] : List ℚ).length ≠ 11 :=
  ⟨_, rfl, rfl, rfl, rfl, by decide⟩

/-- C9 amended: the DecisionMapper never checks the vector length: for any
non-empty vector it returns a TrendPrediction (labels beyond index 10 fall
back to "Unknown"), and only the empty vector faults, through the argmax
ValueError that no handler catches; in particular well-formed length-11
input has no internal failure mode. -/
theorem C9_no_length_check (probs : List ℚ) :
    (probs = [] → decisionMapper probs = Except.error PyError.valueError) ∧
    (probs ≠ [] → ∃ p : TrendPrediction, decisionMapper probs = Except.ok p) := by
  constructor
  · intro h
    subst h
    rfl
  · intro h
    cases probs with
    | nil => exact absurd rfl h
    | cons q qs => exact ⟨_, rfl⟩

/-- Witness for C9 on a concrete non-empty vector. -/
theorem C9_no_length_check_witness :
    ([(1 : ℚ), 2] ≠ []) ∧
    ∃ p : TrendPrediction, decisionMapper [(1 : ℚ), 2] = Except.ok p :=
  ⟨by simp, (C9_no_length_check [(1 : ℚ), 2]).2 (by simp)⟩

/-- C10 counterexample: a 14-row price series yields a 1-row feature table,
not the 0 rows that the claimed max(0, N - 14) formula predicts. -/
theorem C10_counterexample :
    (featureTable [((1 : ℚ), (1 : ℚ)), (2, 1), (3, 1), (4, 1), (5, 1), (6, 1), (7, 1),
        (8, 1), (9, 1), (10, 1), (11, 1), (12, 1), (13, 1), (14, 1)]).length ≠
      ([((1 : ℚ), (1 : ℚ)), (2, 1), (3, 1), (4, 1), (5, 1), (6, 1), (7, 1),
        (8, 1), (9, 1), (10, 1), (11, 1), (12, 1), (13, 1), (14, 1)] : List (ℚ × ℚ)).length
        - 14 := by
  rw [featureTable_length]
  decide

/-- C10 amended: the MACD oscillator column is defined at every index
(zero warm-up rows), the rows dropped during assembly are exactly the RSI
warm-up rows, and an N-row series yields a feature table of exactly
max(0, N - 13) rows. -/
theorem C10_zero_macd_warmup (data : List (ℚ × ℚ)) :
    (calculate_macd (data.map Prod.fst) 12 26 9).length = data.length ∧
    (∀ o ∈ (calculate_macd (data.map Prod.fst) 12 26 9).map some, o ≠ none) ∧
    (featureTable data).length = data.length - 13 ∧
    (featureTable data).map (fun row => (row.1, row.2.1)) =
      data.drop (min data.length 13) := by
  refine ⟨by rw [calculate_macd_length]; simp, ?_, featureTable_length data,
    featureTable_proj data⟩
  intro o ho
  rcases List.mem_map.mp ho with ⟨v, _, hv⟩
  rw [← hv]
  simp
